import Mathlib

/-!
# Verification of the WhatsApp OTP core (shopify-next-app)

Shallow embedding of the OTP lifecycle engine:
* `src/sql/whatsapp_otps.sql` — `create_otp_entry`, `verify_otp` over table
  `otp_storage`;
* `src/sql/vendor_query.sql` — `check_otp_rate_limit`;
* `src/send-otp.ts` — issuance handler (validation, rate limit, code
  generation, persistence, notifier dispatch);
* `src/verify-otp.ts` — verification handler and the Supabase-auth
  session-minting handshake.

The `otp_storage` table is modelled as a list of rows; timestamps are
integer epoch seconds (the SQL compares `TIMESTAMPTZ` values and casts
elapsed time with `EXTRACT(EPOCH ...)::INTEGER`, so second granularity is
exact for the properties proved here).
-/

/-- A row of `public.otp_storage` (whatsapp_otps.sql, lines 1-11). -/
structure OtpRecord where
  id : Nat
  phoneNumber : String
  otpCode : String
  createdAt : Int
  expiresAt : Int
  attempts : Nat
  verified : Bool
  requestIp : Option String
deriving Repr, DecidableEq

/-- The `otp_storage` table: a list of rows. -/
abbrev OtpStore := List OtpRecord

/-- Row matches `phone_number = p`. -/
def phoneIs (p : String) (r : OtpRecord) : Bool := r.phoneNumber == p

/-- Row matches `phone_number = p AND verified = FALSE`. -/
def liveFor (p : String) (r : OtpRecord) : Bool := r.phoneNumber == p && !r.verified

/-- The query `SELECT * ... WHERE phone_number = p AND verified = FALSE ORDER BY
created_at DESC LIMIT 1` (whatsapp_otps.sql, lines 89-94): the live row with
the greatest `created_at` (first such row on ties). -/
def mostRecentLive (s : OtpStore) (p : String) : Option OtpRecord :=
  (s.filter (liveFor p)).foldl
    (fun acc r =>
      match acc with
      | none => some r
      | some b => if b.createdAt < r.createdAt then some r else some b)
    none

/-- Embedding of `create_otp_entry` (whatsapp_otps.sql, lines 31-73): delete ALL rows for
the phone (verified and unverified), then insert one fresh row with
`expires_at = NOW() + expiry_minutes` and default `attempts = 0`,
`verified = FALSE`.  Returns the new row id and the updated table. -/
def create_otp_entry (s : OtpStore) (now : Int) (newId : Nat)
    (p_phone_number p_otp_code : String) (p_expiry_minutes : Int)
    (p_request_ip : Option String) : Nat × OtpStore :=
  let cleared := s.filter (fun r => !phoneIs p_phone_number r)
  let newRec : OtpRecord :=
    { id := newId
      phoneNumber := p_phone_number
      otpCode := p_otp_code
      createdAt := now
      expiresAt := now + p_expiry_minutes * 60
      attempts := 0
      verified := false
      requestIp := p_request_ip }
  (newId, newRec :: cleared)

/-- Result row of `verify_otp`: `TABLE(success BOOLEAN, message TEXT,
remaining_attempts INTEGER)`. -/
structure VerifyResult where
  success : Bool
  message : String
  remaining_attempts : Int
deriving Repr, DecidableEq

/-- The update `UPDATE public.otp_storage SET attempts = attempts + 1 WHERE id = i`
applied to one row (whatsapp_otps.sql, lines 117-119). -/
def bumpAttempts (i : Nat) (r : OtpRecord) : OtpRecord :=
  if r.id == i then { r with attempts := r.attempts + 1 } else r

/-- Embedding of `verify_otp` (whatsapp_otps.sql, lines 76-133).  Looks up the most
recent unverified row for the phone; returns "no OTP" if none; deletes and
fails on expiry (`expires_at < NOW()`) and on `attempts >= 5`; otherwise
increments `attempts`, computes `remaining := 5 - (attempts + 1)` and on a
code match deletes the row and succeeds, on a mismatch keeps the
incremented row and fails. -/
def verify_otp (s : OtpStore) (now : Int) (p_phone_number p_otp_code : String) :
    VerifyResult × OtpStore :=
  match mostRecentLive s p_phone_number with
  | none =>
      ({ success := false, message := "No OTP found for this phone number",
         remaining_attempts := 0 }, s)
  | some v =>
      if v.expiresAt < now then
        ({ success := false, message := "OTP has expired",
           remaining_attempts := 0 }, s.filter (fun r => !(r.id == v.id)))
      else if v.attempts ≥ 5 then
        ({ success := false, message := "Maximum verification attempts exceeded",
           remaining_attempts := 0 }, s.filter (fun r => !(r.id == v.id)))
      else
        let bumped := s.map (bumpAttempts v.id)
        let v_remaining : Int := 5 - ((v.attempts : Int) + 1)
        if v.otpCode == p_otp_code then
          ({ success := true, message := "OTP verified successfully",
             remaining_attempts := v_remaining },
           bumped.filter (fun r => !(r.id == v.id)))
        else
          ({ success := false, message := "Invalid OTP code",
             remaining_attempts := v_remaining }, bumped)

/-- Result row of `check_otp_rate_limit`: `TABLE(allowed BOOLEAN,
wait_seconds INTEGER)`. -/
structure RateLimitResult where
  allowed : Bool
  wait_seconds : Int
deriving Repr, DecidableEq

/-- The query `SELECT created_at ... WHERE phone_number = p ORDER BY created_at DESC
LIMIT 1` (vendor_query.sql, lines 52-57): greatest `created_at` over ALL
rows for the phone (verified or not). -/
def mostRecentCreated (s : OtpStore) (p : String) : Option Int :=
  ((s.filter (phoneIs p)).map (fun r => r.createdAt)).foldl
    (fun acc t =>
      match acc with
      | none => some t
      | some u => if u < t then some t else some u)
    none

/-- Embedding of `check_otp_rate_limit` (vendor_query.sql, lines 40-76): no prior row
allows with wait 0; otherwise `wait := window - (now - last_created)` and
deny with that wait exactly when it is positive. -/
def check_otp_rate_limit (s : OtpStore) (now : Int) (p_phone_number : String)
    (p_window_seconds : Int) : RateLimitResult :=
  match mostRecentCreated s p_phone_number with
  | none => { allowed := true, wait_seconds := 0 }
  | some t =>
      let v_wait := p_window_seconds - (now - t)
      if 0 < v_wait then { allowed := false, wait_seconds := v_wait }
      else { allowed := true, wait_seconds := 0 }

/-! ## send-otp.ts: code generation (`Math.floor(100000 + Math.random() * 900000).toString()`) -/

/-- Decimal digits of `n` (most significant first) prepended to `acc` —
the embedding of JS `Number.prototype.toString` for non-negative
integers. -/
def toDecimalAux (n : Nat) (acc : List Char) : List Char :=
  if h : n = 0 then acc
  else toDecimalAux (n / 10) (Char.ofNat (48 + n % 10) :: acc)
termination_by n
decreasing_by exact Nat.div_lt_self (Nat.pos_of_ne_zero h) (by norm_num)

/-- Number of decimal digits emitted by `toDecimalAux`. -/
def numDigits (n : Nat) : Nat :=
  if n = 0 then 0 else numDigits (n / 10) + 1
termination_by n
decreasing_by
  rename_i h
  exact Nat.div_lt_self (Nat.pos_of_ne_zero h) (by norm_num)

/-- JS `n.toString()` for a non-negative integer `n`. -/
def jsNumToString (n : Nat) : String :=
  if n = 0 then "0" else String.mk (toDecimalAux n [])

/-- Reads a digit string back as a number (accumulator form). -/
def digitsVal : List Char → Nat → Nat
  | [], a => a
  | c :: cs, a => digitsVal cs (a * 10 + (c.toNat - 48))

/-- The expression `Math.floor(100000 + Math.random() * 900000)` (send-otp.ts, line 64),
with the `Math.random()` outcome modelled as a rational `q` in `[0, 1)`. -/
def genOtpNum (q : ℚ) : ℤ := ⌊(100000 : ℚ) + q * 900000⌋

/-- JS `.toString()` of the generated number: the OTP code the issuer stores
and sends. -/
def genOtpCode (q : ℚ) : String := jsNumToString (genOtpNum q).toNat

/-! ## send-otp.ts: phone validation and issuance handler -/

/-- The regex test `/^\+1\d{10}$/.test(phoneNumber)` (send-otp.ts, line 31). -/
def phonePlus1 (phone : String) : Bool :=
  match phone.data with
  | c1 :: c2 :: rest =>
      c1 == '+' && c2 == '1' && rest.length == 10 && rest.all Char.isDigit
  | _ => false

/-- The regex test `/^\+91\d{10}$/.test(phoneNumber)` (send-otp.ts, line 31). -/
def phonePlus91 (phone : String) : Bool :=
  match phone.data with
  | c1 :: c2 :: c3 :: rest =>
      c1 == '+' && c2 == '9' && c3 == '1' && rest.length == 10 &&
        rest.all Char.isDigit
  | _ => false

/-- The check `isValidFormat` (send-otp.ts, line 31). -/
def isValidPhoneFormat (phone : String) : Bool :=
  phonePlus1 phone || phonePlus91 phone

/-- The check `phoneNumber.startsWith('+')` (send-otp.ts, line 26). -/
def phoneHasPlus (phone : String) : Bool :=
  match phone.data with
  | c :: _ => c == '+'
  | _ => false

/-- Response shapes of the issuance endpoint (send-otp.ts): 400 with an
error, 429 with a wait, or 200 `{success: true, expiresIn: 300}`. -/
inductive SendResponse where
  | badRequest (error : String)
  | rateLimited (wait_seconds : Int)
  | okSent (expiresIn : Int)
deriving Repr, DecidableEq

/-- The POST `/api/send-otp` handler (send-otp.ts, lines 11-126): validate
the phone, check the 15-second rate limit, generate the code from the
random outcome `q`, persist via `create_otp_entry` (5-minute expiry), then
dispatch over WhatsApp.  The notifier outcome `notifierOk` is logged but
deliberately ignored ("Option A", lines 101-109).  Transport/database
infrastructure failures (the `rpc` error branches) are outside the model. -/
def sendOtpHandler (s : OtpStore) (now : Int) (phoneNumber : String) (q : ℚ)
    (newId : Nat) (requestIp : Option String) (notifierOk : Bool) :
    SendResponse × OtpStore :=
  if phoneNumber = "" then (.badRequest "Phone number is required", s)
  else if !phoneHasPlus phoneNumber then
    (.badRequest "Phone number must include country code (e.g., +91 or +1)", s)
  else if !isValidPhoneFormat phoneNumber then
    (.badRequest
      "Invalid phone number format. Must be +1 or +91 followed by 10 digits.", s)
  else
    let rl := check_otp_rate_limit s now phoneNumber 15
    if !rl.allowed then (.rateLimited rl.wait_seconds, s)
    else
      let otpCode := genOtpCode q
      let created := create_otp_entry s now newId phoneNumber otpCode 5 requestIp
      if notifierOk then (.okSent 300, created.2) else (.okSent 300, created.2)

/-! ## verify-otp.ts: identity collaborator and the verify handler -/

/-- Modelled from the spec: an account in the directory of the Identity
collaborator (spec section 6, `Identity.*`; Supabase auth users, keyed by
a unique phone number). -/
structure AuthUser where
  id : Nat
  phone : String
  password : Option String
  phoneConfirmed : Bool
deriving Repr, DecidableEq

/-- The user directory of the Identity collaborator. -/
abbrev AuthState := List AuthUser

/-- Modelled from the spec: the opaque session credential minted by the
identity collaborator, bound to the account it was minted for (spec
section 3, Session). -/
structure Session where
  userId : Nat
deriving Repr, DecidableEq

/-- Modelled from the spec: `supabase.auth.signInWithPassword({phone,
password})` (verify-otp.ts, line 192) — authenticates the account with
that phone whose current password matches, returning a session bound to
it. -/
def signInWithPassword (auth : AuthState) (phone pw : String) :
    Option Session :=
  match auth.find? (fun v => v.phone == phone && v.password == some pw) with
  | some v => some { userId := v.id }
  | none => none

/-- Modelled from the spec: `supabase.auth.admin.updateUserById(uid,
{password})` (verify-otp.ts, line 179). -/
def adminUpdatePassword (auth : AuthState) (uid : Nat) (pw : String) :
    AuthState :=
  auth.map (fun v => if v.id == uid then { v with password := some pw } else v)

/-- Modelled from the spec: `supabase.auth.admin.createUser(...)`
(verify-otp.ts, lines 81 and 182) — errors when an account with that phone
already exists (phones are unique in the directory), otherwise appends a
fresh account. -/
def adminCreateUser (auth : AuthState) (freshId : Nat) (phone : String)
    (pw : Option String) (confirmed : Bool) : Option (AuthUser × AuthState) :=
  if auth.any (fun v => v.phone == phone) then none
  else
    some ({ id := freshId, phone := phone, password := pw,
            phoneConfirmed := confirmed },
          auth ++ [{ id := freshId, phone := phone, password := pw,
                     phoneConfirmed := confirmed }])

/-- Response shapes of the verification endpoint (verify-otp.ts):
400 missing params, 400 with the RPC failure message and remaining
attempts, the three 500s, and 200 `{success, message, session}` (the 200
body carries NO remaining-attempts field). -/
inductive VerifyHttpResponse where
  | missingParams
  | verifyFailed (error : String) (remaining_attempts : Int)
  | createUserFailed
  | sessionFailed
  | internalError
  | ok (message : String) (session : Session)
deriving Repr, DecidableEq

/-- The POST `/api/verify-otp` handler (verify-otp.ts, lines 10-212): check
params, run the `verify_otp` RPC, and on success resolve the account
(`users.find` on the FIRST user list, line 75), then perform the
temp-password handshake: existing account → `updateUserById` with the
ephemeral secret; no account → `createUser` WITHOUT password (line 81)
followed by `createUser` WITH password (line 182), whose duplicate-phone
error is thrown and caught as a 500; finally `signInWithPassword` and
return the session.  Database/transport failures are outside the model. -/
def verifyOtpHandler (s : OtpStore) (auth : AuthState) (now : Int)
    (phoneNumber otp tempPassword : String) (freshId freshId2 : Nat) :
    VerifyHttpResponse × OtpStore × AuthState :=
  if phoneNumber == "" || otp == "" then (.missingParams, s, auth)
  else if !(verify_otp s now phoneNumber otp).1.success then
    (.verifyFailed (verify_otp s now phoneNumber otp).1.message
        (verify_otp s now phoneNumber otp).1.remaining_attempts,
     (verify_otp s now phoneNumber otp).2, auth)
  else
    match auth.find? (fun v => v.phone == phoneNumber) with
    | some existingUser =>
        match signInWithPassword
            (adminUpdatePassword auth existingUser.id tempPassword)
            phoneNumber tempPassword with
        | some sess =>
            (.ok "OTP verified successfully" sess,
             (verify_otp s now phoneNumber otp).2,
             adminUpdatePassword auth existingUser.id tempPassword)
        | none =>
            (.sessionFailed, (verify_otp s now phoneNumber otp).2,
             adminUpdatePassword auth existingUser.id tempPassword)
    | none =>
        match adminCreateUser auth freshId phoneNumber none true with
        | none =>
            (.createUserFailed, (verify_otp s now phoneNumber otp).2, auth)
        | some (_, auth1) =>
            match adminCreateUser auth1 freshId2 phoneNumber
                (some tempPassword) true with
            | none => (.internalError, (verify_otp s now phoneNumber otp).2, auth1)
            | some (_, auth2) =>
                match signInWithPassword auth2 phoneNumber tempPassword with
                | some sess =>
                    (.ok "OTP verified successfully" sess,
                     (verify_otp s now phoneNumber otp).2, auth2)
                | none =>
                    (.sessionFailed, (verify_otp s now phoneNumber otp).2, auth2)

/-- Sample phone used by the concrete scenario in the spec. -/
def samplePhone : String := "+15551234567"

/-- A freshly issued, unexpired sample row (code "482913", issued at epoch
second 0 with a 5-minute expiry, zero prior attempts). -/
def sampleRec : OtpRecord :=
  { id := 1, phoneNumber := samplePhone, otpCode := "482913", createdAt := 0,
    expiresAt := 300, attempts := 0, verified := false, requestIp := none }

/-- A pre-existing account for the sample phone (no password set). -/
def sampleUser : AuthUser :=
  { id := 7, phone := samplePhone, password := none, phoneConfirmed := true }

/-! ## General list helper lemmas -/

theorem filter_not_self_eq_nil {α : Type} (l : List α) (p : α → Bool) :
    (l.filter (fun a => !p a)).filter p = [] := by
  rw [List.filter_filter]
  apply List.filter_eq_nil_iff.mpr
  intro a _
  cases p a <;> simp

theorem filter_swap {α : Type} (l : List α) (p q : α → Bool) :
    (l.filter p).filter q = (l.filter q).filter p := by
  rw [List.filter_filter, List.filter_filter]
  apply List.filter_congr
  intro a _
  cases p a <;> cases q a <;> rfl

theorem filter_and_left_nil {α : Type} (l : List α) (p q : α → Bool)
    (h : l.filter p = []) : l.filter (fun a => p a && q a) = [] := by
  apply List.filter_eq_nil_iff.mpr
  intro a ha
  have := List.filter_eq_nil_iff.mp h a ha
  cases hp : p a
  · simp
  · exact absurd hp (by simpa using this)

/-! ## Lemmas about the state machine of `verify_otp` -/

theorem filter_live_eq_filter_phone (l : OtpStore) (p : String) :
    l.filter (liveFor p) = (l.filter (phoneIs p)).filter (fun a => !a.verified) := by
  rw [List.filter_filter]
  apply List.filter_congr
  intro a _
  exact Bool.and_comm _ _

theorem filter_live_single {s : OtpStore} {p : String} {r : OtpRecord}
    (hfp : s.filter (phoneIs p) = [r]) (hv : r.verified = false) :
    s.filter (liveFor p) = [r] := by
  rw [filter_live_eq_filter_phone, hfp]
  simp [hv]

theorem filter_live_nil {s : OtpStore} {p : String}
    (hfp : s.filter (phoneIs p) = []) : s.filter (liveFor p) = [] := by
  rw [filter_live_eq_filter_phone, hfp]
  rfl

theorem mostRecentLive_single {s : OtpStore} {p : String} {r : OtpRecord}
    (hfp : s.filter (phoneIs p) = [r]) (hv : r.verified = false) :
    mostRecentLive s p = some r := by
  unfold mostRecentLive
  rw [filter_live_single hfp hv]
  rfl

theorem mostRecentLive_none {s : OtpStore} {p : String}
    (h : s.filter (liveFor p) = []) : mostRecentLive s p = none := by
  unfold mostRecentLive
  rw [h]
  rfl

theorem erase_id_filter_phone {s : OtpStore} {p : String} {r : OtpRecord}
    (hfp : s.filter (phoneIs p) = [r]) :
    (s.filter (fun x => !(x.id == r.id))).filter (phoneIs p) = [] := by
  rw [filter_swap, hfp]
  simp

theorem bump_phoneNumber (i : Nat) (x : OtpRecord) :
    (bumpAttempts i x).phoneNumber = x.phoneNumber := by
  unfold bumpAttempts
  split <;> rfl

theorem map_bump_filter_phone (l : OtpStore) (p : String) (i : Nat) :
    (l.map (bumpAttempts i)).filter (phoneIs p) =
      (l.filter (phoneIs p)).map (bumpAttempts i) := by
  rw [List.filter_map]
  congr 1
  apply List.filter_congr
  intro a _
  show phoneIs p (bumpAttempts i a) = phoneIs p a
  simp [phoneIs, bump_phoneNumber]

theorem map_bump_filter_phone_single {s : OtpStore} {p : String} {r : OtpRecord}
    (hfp : s.filter (phoneIs p) = [r]) :
    (s.map (bumpAttempts r.id)).filter (phoneIs p) =
      [{ r with attempts := r.attempts + 1 }] := by
  rw [map_bump_filter_phone, hfp]
  simp [bumpAttempts]

/-- "No OTP found" branch (whatsapp_otps.sql, lines 97-100). -/
theorem verify_otp_no_record (s : OtpStore) (now : Int) (p c : String)
    (h : s.filter (liveFor p) = []) :
    verify_otp s now p c =
      ({ success := false, message := "No OTP found for this phone number",
         remaining_attempts := 0 }, s) := by
  unfold verify_otp
  rw [mostRecentLive_none h]

/-- Expiry branch (whatsapp_otps.sql, lines 102-107). -/
theorem verify_otp_expired {s : OtpStore} {p : String} {r : OtpRecord}
    (now : Int) (c : String)
    (hfp : s.filter (phoneIs p) = [r]) (hv : r.verified = false)
    (hexp : r.expiresAt < now) :
    verify_otp s now p c =
      ({ success := false, message := "OTP has expired",
         remaining_attempts := 0 }, s.filter (fun x => !(x.id == r.id))) := by
  unfold verify_otp
  rw [mostRecentLive_single hfp hv]
  simp [hexp]

/-- Attempt-exhaustion branch (whatsapp_otps.sql, lines 109-114). -/
theorem verify_otp_exhausted {s : OtpStore} {p : String} {r : OtpRecord}
    (now : Int) (c : String)
    (hfp : s.filter (phoneIs p) = [r]) (hv : r.verified = false)
    (hexp : ¬ r.expiresAt < now) (hatt : 5 ≤ r.attempts) :
    verify_otp s now p c =
      ({ success := false, message := "Maximum verification attempts exceeded",
         remaining_attempts := 0 }, s.filter (fun x => !(x.id == r.id))) := by
  unfold verify_otp
  rw [mostRecentLive_single hfp hv]
  simp [hexp, hatt]

/-- Code-match branch (whatsapp_otps.sql, lines 116-127). -/
theorem verify_otp_match {s : OtpStore} {p : String} {r : OtpRecord}
    (now : Int) (c : String)
    (hfp : s.filter (phoneIs p) = [r]) (hv : r.verified = false)
    (hexp : ¬ r.expiresAt < now) (hatt : r.attempts < 5) (hc : r.otpCode = c) :
    verify_otp s now p c =
      ({ success := true, message := "OTP verified successfully",
         remaining_attempts := 5 - ((r.attempts : Int) + 1) },
       (s.map (bumpAttempts r.id)).filter (fun x => !(x.id == r.id))) := by
  unfold verify_otp
  rw [mostRecentLive_single hfp hv]
  simp [hexp, Nat.not_le.mpr hatt, hc]

/-- Code-mismatch branch (whatsapp_otps.sql, lines 116-131). -/
theorem verify_otp_mismatch {s : OtpStore} {p : String} {r : OtpRecord}
    (now : Int) (c : String)
    (hfp : s.filter (phoneIs p) = [r]) (hv : r.verified = false)
    (hexp : ¬ r.expiresAt < now) (hatt : r.attempts < 5) (hc : ¬ r.otpCode = c) :
    verify_otp s now p c =
      ({ success := false, message := "Invalid OTP code",
         remaining_attempts := 5 - ((r.attempts : Int) + 1) },
       s.map (bumpAttempts r.id)) := by
  unfold verify_otp
  rw [mostRecentLive_single hfp hv]
  simp [hexp, Nat.not_le.mpr hatt, hc]

theorem match_delete_filter_phone {s : OtpStore} {p : String} {r : OtpRecord}
    (hfp : s.filter (phoneIs p) = [r]) :
    ((s.map (bumpAttempts r.id)).filter (fun x => !(x.id == r.id))).filter
        (phoneIs p) = [] := by
  rw [filter_swap, map_bump_filter_phone_single hfp]
  simp

/-! ## C1: issuance enforces the single-active-OTP invariant -/

theorem create_otp_entry_filter_phone (s : OtpStore) (now : Int) (newId : Nat)
    (phone code : String) (expiryMinutes : Int) (ip : Option String) :
    (create_otp_entry s now newId phone code expiryMinutes ip).2.filter
        (phoneIs phone) =
      [{ id := newId, phoneNumber := phone, otpCode := code, createdAt := now,
         expiresAt := now + expiryMinutes * 60, attempts := 0,
         verified := false, requestIp := ip }] := by
  show ((_ :: s.filter fun r => !phoneIs phone r).filter (phoneIs phone)) = _
  rw [List.filter_cons_of_pos (by simp [phoneIs])]
  rw [filter_not_self_eq_nil]

/-- C1.  After every `create_otp_entry(phone, ...)` call, on any prior table
state, the rows for that phone are exactly the one freshly inserted
unverified row: the delete-then-insert removes every existing record
(verified or not) first, so at most one non-consumed record exists for the
phone after each issue call. -/
theorem create_otp_entry_single_active (s : OtpStore) (now : Int) (newId : Nat)
    (phone code : String) (expiryMinutes : Int) (ip : Option String) :
    ((create_otp_entry s now newId phone code expiryMinutes ip).2.filter
        (phoneIs phone) =
      [{ id := newId, phoneNumber := phone, otpCode := code, createdAt := now,
         expiresAt := now + expiryMinutes * 60, attempts := 0,
         verified := false, requestIp := ip }]) ∧
    ((create_otp_entry s now newId phone code expiryMinutes ip).2.filter
        (liveFor phone)).length ≤ 1 := by
  refine ⟨create_otp_entry_filter_phone s now newId phone code expiryMinutes ip, ?_⟩
  rw [filter_live_eq_filter_phone,
    create_otp_entry_filter_phone s now newId phone code expiryMinutes ip]
  simp

/-! ## C2: terminal outcomes consume the record, plain mismatch does not -/

/-- C2.  For a phone whose only stored row is the live record `r`, a
`verify_otp` call deletes the record exactly on the terminal outcomes
(expiry, attempt exhaustion, code match) and never on a code mismatch with
budget remaining; on the success outcome the record is consumed, so an
immediate replay of the same correct code fails with "no OTP found". -/
theorem verify_otp_terminal_consumption (s : OtpStore) (now now' : Int)
    (r : OtpRecord) (c : String)
    (hfp : s.filter (phoneIs r.phoneNumber) = [r]) (hv : r.verified = false) :
    (r.expiresAt < now →
      (verify_otp s now r.phoneNumber c).1 =
        { success := false, message := "OTP has expired",
          remaining_attempts := 0 } ∧
      (verify_otp s now r.phoneNumber c).2.filter (phoneIs r.phoneNumber) = []) ∧
    (¬ r.expiresAt < now → 5 ≤ r.attempts →
      (verify_otp s now r.phoneNumber c).1 =
        { success := false, message := "Maximum verification attempts exceeded",
          remaining_attempts := 0 } ∧
      (verify_otp s now r.phoneNumber c).2.filter (phoneIs r.phoneNumber) = []) ∧
    (¬ r.expiresAt < now → r.attempts < 5 → r.otpCode = c →
      (verify_otp s now r.phoneNumber c).1.success = true ∧
      (verify_otp s now r.phoneNumber c).2.filter (phoneIs r.phoneNumber) = [] ∧
      verify_otp (verify_otp s now r.phoneNumber c).2 now' r.phoneNumber c =
        ({ success := false, message := "No OTP found for this phone number",
           remaining_attempts := 0 },
         (verify_otp s now r.phoneNumber c).2)) ∧
    (¬ r.expiresAt < now → r.attempts < 5 → ¬ r.otpCode = c →
      (verify_otp s now r.phoneNumber c).1.success = false ∧
      (verify_otp s now r.phoneNumber c).2.filter (phoneIs r.phoneNumber) =
        [{ r with attempts := r.attempts + 1 }]) := by
  refine ⟨?_, ?_, ?_, ?_⟩
  · intro hexp
    rw [verify_otp_expired now c hfp hv hexp]
    exact ⟨rfl, erase_id_filter_phone hfp⟩
  · intro hexp hatt
    rw [verify_otp_exhausted now c hfp hv hexp hatt]
    exact ⟨rfl, erase_id_filter_phone hfp⟩
  · intro hexp hatt hc
    rw [verify_otp_match now c hfp hv hexp hatt hc]
    refine ⟨rfl, match_delete_filter_phone hfp, ?_⟩
    exact verify_otp_no_record _ now' _ c
      (filter_live_nil (match_delete_filter_phone hfp))
  · intro hexp hatt hc
    rw [verify_otp_mismatch now c hfp hv hexp hatt hc]
    exact ⟨rfl, map_bump_filter_phone_single hfp⟩

/-- C2 witness: the success-consumption branch at a concrete fresh record —
the correct code succeeds once and the immediate replay reports
"no OTP found". -/
theorem verify_otp_terminal_consumption_witness :
    ([sampleRec].filter (phoneIs sampleRec.phoneNumber) = [sampleRec]) ∧
    ((verify_otp [sampleRec] 10 sampleRec.phoneNumber "482913").1.success = true ∧
      (verify_otp [sampleRec] 10 sampleRec.phoneNumber "482913").2.filter
        (phoneIs sampleRec.phoneNumber) = [] ∧
      verify_otp (verify_otp [sampleRec] 10 sampleRec.phoneNumber "482913").2 20
          sampleRec.phoneNumber "482913" =
        ({ success := false, message := "No OTP found for this phone number",
           remaining_attempts := 0 },
         (verify_otp [sampleRec] 10 sampleRec.phoneNumber "482913").2)) :=
  ⟨by decide,
   (verify_otp_terminal_consumption [sampleRec] 10 20 sampleRec "482913"
      (by decide) rfl).2.2.1 (by decide) (by decide) rfl⟩

/-! ## C3: attempt-exhaustion schedule -/

theorem wrong_code_iter_filter (s : OtpStore) (now : Int) (r : OtpRecord)
    (c : String)
    (hfp : s.filter (phoneIs r.phoneNumber) = [r]) (hv : r.verified = false)
    (hatt0 : r.attempts = 0) (hexp : ¬ r.expiresAt < now) (hc : ¬ r.otpCode = c) :
    ∀ i : Nat, i ≤ 5 →
      ((fun t => (verify_otp t now r.phoneNumber c).2)^[i] s).filter
          (phoneIs r.phoneNumber) = [{ r with attempts := i }] := by
  intro i
  induction i with
  | zero =>
      intro _
      rw [Function.iterate_zero_apply, hfp, ← hatt0]
  | succ i ih =>
      intro hi
      have hlt : i < 5 := Nat.lt_of_succ_le hi
      have hprev := ih (Nat.le_of_lt hlt)
      rw [Function.iterate_succ_apply']
      have hstep := verify_otp_mismatch (r := { r with attempts := i }) now c
        hprev hv hexp hlt hc
      rw [hstep]
      exact map_bump_filter_phone_single hprev

/-- C3 counterexample.  Concrete run refuting the claim as stated: with a
freshly issued, unexpired OTP, after five consecutive wrong `verify` calls
the record is still present (the fifth call does NOT delete it), and the
sixth call reports "Maximum verification attempts exceeded", not
"no OTP found". -/
theorem attempt_exhaustion_fifth_counterexample :
    ((fun t => (verify_otp t 0 samplePhone "000000").2)^[5] [sampleRec] =
        [{ sampleRec with attempts := 5 }]) ∧
    ((fun t => (verify_otp t 0 samplePhone "000000").2)^[5] [sampleRec] ≠ []) ∧
    ((verify_otp ((fun t => (verify_otp t 0 samplePhone "000000").2)^[5]
        [sampleRec]) 0 samplePhone "000000").1.message ≠
      "No OTP found for this phone number") := by
  decide

/-- C3 (amended).  Given a freshly issued, unexpired OTP (attempts = 0),
five consecutive wrong `verify` calls return remainingAttempts 4,3,2,1,0 in
that order, the record is still present after the fifth; the SIXTH call
deletes the record with "Maximum verification attempts exceeded"; a
SEVENTH call reports "no OTP found". -/
theorem attempt_exhaustion_sequence (s : OtpStore) (now : Int) (r : OtpRecord)
    (c : String)
    (hfp : s.filter (phoneIs r.phoneNumber) = [r]) (hv : r.verified = false)
    (hatt0 : r.attempts = 0) (hexp : ¬ r.expiresAt < now) (hc : ¬ r.otpCode = c) :
    (∀ i : Nat, i < 5 →
      (verify_otp ((fun t => (verify_otp t now r.phoneNumber c).2)^[i] s) now
          r.phoneNumber c).1 =
        { success := false, message := "Invalid OTP code",
          remaining_attempts := 5 - ((i : Int) + 1) }) ∧
    (((fun t => (verify_otp t now r.phoneNumber c).2)^[5] s).filter
        (phoneIs r.phoneNumber) = [{ r with attempts := 5 }]) ∧
    ((verify_otp ((fun t => (verify_otp t now r.phoneNumber c).2)^[5] s) now
        r.phoneNumber c).1 =
      { success := false, message := "Maximum verification attempts exceeded",
        remaining_attempts := 0 }) ∧
    (((fun t => (verify_otp t now r.phoneNumber c).2)^[6] s).filter
        (phoneIs r.phoneNumber) = []) ∧
    ((verify_otp ((fun t => (verify_otp t now r.phoneNumber c).2)^[6] s) now
        r.phoneNumber c).1 =
      { success := false, message := "No OTP found for this phone number",
        remaining_attempts := 0 }) := by
  have hiter := wrong_code_iter_filter s now r c hfp hv hatt0 hexp hc
  have h5 := hiter 5 (Nat.le_refl 5)
  have h6 : ((fun t => (verify_otp t now r.phoneNumber c).2)^[6] s).filter
      (phoneIs r.phoneNumber) = [] := by
    rw [Function.iterate_succ_apply',
      verify_otp_exhausted (r := { r with attempts := 5 }) now c h5 hv hexp
        (Nat.le_refl 5)]
    exact erase_id_filter_phone h5
  refine ⟨?_, h5, ?_, h6, ?_⟩
  · intro i hi
    have hstep := verify_otp_mismatch (r := { r with attempts := i }) now c
      (hiter i (Nat.le_of_lt hi)) hv hexp hi hc
    rw [hstep]
  · rw [verify_otp_exhausted (r := { r with attempts := 5 }) now c h5 hv hexp
      (Nat.le_refl 5)]
  · rw [verify_otp_no_record _ now _ c (filter_live_nil h6)]

/-- C3 witness: the amended schedule run concretely — the fifth wrong call
returns remainingAttempts 0, and the sixth call deletes the record with
"Maximum verification attempts exceeded". -/
theorem attempt_exhaustion_sequence_witness :
    ([sampleRec].filter (phoneIs sampleRec.phoneNumber) = [sampleRec]) ∧
    ((verify_otp ((fun t => (verify_otp t 0 sampleRec.phoneNumber "000000").2)^[4]
        [sampleRec]) 0 sampleRec.phoneNumber "000000").1 =
      { success := false, message := "Invalid OTP code",
        remaining_attempts := 5 - (((4 : Nat) : Int) + 1) }) ∧
    ((verify_otp ((fun t => (verify_otp t 0 sampleRec.phoneNumber "000000").2)^[5]
        [sampleRec]) 0 sampleRec.phoneNumber "000000").1 =
      { success := false, message := "Maximum verification attempts exceeded",
        remaining_attempts := 0 }) :=
  ⟨by decide,
   (attempt_exhaustion_sequence [sampleRec] 0 sampleRec "000000" (by decide) rfl
      rfl (by decide) (by decide)).1 4 (by decide),
   (attempt_exhaustion_sequence [sampleRec] 0 sampleRec "000000" (by decide) rfl
      rfl (by decide) (by decide)).2.2.1⟩

/-! ## C7: expiry consumes the record regardless of code correctness -/

/-- C7.  For a phone whose only stored row is the live record `r`, a
`verify_otp` call made after `expiresAt` fails with "OTP has expired" and
remainingAttempts 0 whatever code is submitted, and deletes the record, so
a subsequent `verify` for the phone (any code, any time) reports
"no OTP found". -/
theorem verify_otp_expiry_consumes (s : OtpStore) (now now' : Int)
    (r : OtpRecord) (c c' : String)
    (hfp : s.filter (phoneIs r.phoneNumber) = [r]) (hv : r.verified = false)
    (hexp : r.expiresAt < now) :
    (verify_otp s now r.phoneNumber c).1 =
      { success := false, message := "OTP has expired",
        remaining_attempts := 0 } ∧
    (verify_otp s now r.phoneNumber c).2.filter (phoneIs r.phoneNumber) = [] ∧
    (verify_otp (verify_otp s now r.phoneNumber c).2 now' r.phoneNumber c').1 =
      { success := false, message := "No OTP found for this phone number",
        remaining_attempts := 0 } := by
  rw [verify_otp_expired now c hfp hv hexp]
  refine ⟨rfl, erase_id_filter_phone hfp, ?_⟩
  rw [verify_otp_no_record _ now' _ c'
    (filter_live_nil (erase_id_filter_phone hfp))]

/-- C7 witness: the sample record expires at second 300; verifying at
second 301 with the CORRECT code still fails with "OTP has expired" and a
retry reports "no OTP found". -/
theorem verify_otp_expiry_consumes_witness :
    ([sampleRec].filter (phoneIs sampleRec.phoneNumber) = [sampleRec]) ∧
    ((300 : Int) < 301) ∧
    ((verify_otp [sampleRec] 301 sampleRec.phoneNumber "482913").1 =
      { success := false, message := "OTP has expired",
        remaining_attempts := 0 } ∧
     (verify_otp [sampleRec] 301 sampleRec.phoneNumber "482913").2.filter
        (phoneIs sampleRec.phoneNumber) = [] ∧
     (verify_otp (verify_otp [sampleRec] 301 sampleRec.phoneNumber "482913").2
        302 sampleRec.phoneNumber "482913").1 =
      { success := false, message := "No OTP found for this phone number",
        remaining_attempts := 0 }) :=
  ⟨by decide, by decide,
   verify_otp_expiry_consumes [sampleRec] 301 302 sampleRec "482913" "482913"
     (by decide) rfl (by decide)⟩

/-! ## C8: the rate limiter -/

theorem latest_fold_ub :
    ∀ (ts : List Int) (a t : Int),
      ts.foldl
        (fun acc x =>
          match acc with
          | none => some x
          | some u => if u < x then some x else some u) (some a) = some t →
      a ≤ t ∧ (t = a ∨ t ∈ ts) ∧ ∀ x ∈ ts, x ≤ t := by
  intro ts
  induction ts with
  | nil =>
      intro a t h
      obtain rfl : a = t := by simpa using h
      exact ⟨le_refl _, Or.inl rfl, by simp⟩
  | cons b bs ih =>
      intro a t h
      rw [List.foldl_cons] at h
      by_cases hab : a < b
      · simp only [hab, if_pos] at h
        obtain ⟨h1, h2, h3⟩ := ih b t h
        refine ⟨le_trans (le_of_lt hab) h1, ?_, ?_⟩
        · rcases h2 with h2 | h2
          · exact Or.inr (by simp [h2])
          · exact Or.inr (by simp [h2])
        · intro x hx
          rcases List.mem_cons.mp hx with rfl | hx
          · exact h1
          · exact h3 x hx
      · simp only [hab, if_neg] at h
        obtain ⟨h1, h2, h3⟩ := ih a t h
        refine ⟨h1, ?_, ?_⟩
        · rcases h2 with h2 | h2
          · exact Or.inl h2
          · exact Or.inr (by simp [h2])
        · intro x hx
          rcases List.mem_cons.mp hx with rfl | hx
          · exact le_trans (le_of_not_lt hab) h1
          · exact h3 x hx

theorem mostRecentCreated_spec (s : OtpStore) (p : String) (t : Int)
    (h : mostRecentCreated s p = some t) :
    (∃ x ∈ s, phoneIs p x = true ∧ x.createdAt = t) ∧
    ∀ x ∈ s, phoneIs p x = true → x.createdAt ≤ t := by
  unfold mostRecentCreated at h
  rcases hl : (s.filter (phoneIs p)).map (fun r => r.createdAt) with _ | ⟨b, bs⟩
  · rw [hl] at h
    simp at h
  · rw [hl] at h
    rw [List.foldl_cons] at h
    obtain ⟨h1, h2, h3⟩ := latest_fold_ub bs b t h
    have hmem : t ∈ (s.filter (phoneIs p)).map (fun r => r.createdAt) := by
      rw [hl]
      rcases h2 with h2 | h2
      · simp [h2]
      · simp [h2]
    constructor
    · obtain ⟨x, hx, hxt⟩ := List.mem_map.mp hmem
      exact ⟨x, (List.mem_filter.mp hx).1, (List.mem_filter.mp hx).2, hxt⟩
    · intro x hx hpx
      have : x.createdAt ∈ (s.filter (phoneIs p)).map (fun r => r.createdAt) :=
        List.mem_map.mpr ⟨x, List.mem_filter.mpr ⟨hx, hpx⟩, rfl⟩
      rw [hl] at this
      rcases List.mem_cons.mp this with heq | hmem'
      · rw [heq]
        exact h1
      · exact h3 _ hmem'

/-- C8.  `check_otp_rate_limit(phone, window)`: when no row exists for the
phone it allows with wait 0; otherwise, writing `t` for the most recent
creation timestamp (`t` bounds the `created_at` of every row and belongs to
one), it computes wait = window − (now − t), denies with exactly that wait
when it is positive, and allows with wait 0 otherwise. -/
theorem check_otp_rate_limit_spec (s : OtpStore) (now : Int) (p : String)
    (w : Int) :
    (s.filter (phoneIs p) = [] →
      check_otp_rate_limit s now p w = { allowed := true, wait_seconds := 0 }) ∧
    (∀ t, mostRecentCreated s p = some t →
      ((∃ x ∈ s, phoneIs p x = true ∧ x.createdAt = t) ∧
        ∀ x ∈ s, phoneIs p x = true → x.createdAt ≤ t) ∧
      (0 < w - (now - t) →
        check_otp_rate_limit s now p w =
          { allowed := false, wait_seconds := w - (now - t) }) ∧
      (w - (now - t) ≤ 0 →
        check_otp_rate_limit s now p w =
          { allowed := true, wait_seconds := 0 })) := by
  constructor
  · intro h
    unfold check_otp_rate_limit mostRecentCreated
    rw [h]
    rfl
  · intro t ht
    refine ⟨mostRecentCreated_spec s p t ht, ?_, ?_⟩
    · intro hpos
      unfold check_otp_rate_limit
      rw [ht]
      simp only [hpos, if_pos]
    · intro hnonpos
      unfold check_otp_rate_limit
      rw [ht]
      simp only [not_lt.mpr hnonpos, if_neg, not_false_eq_true]

/-- C8 witness: one row created at second 0; a request at second 10 with a
15-second window is denied with wait 5. -/
theorem check_otp_rate_limit_spec_witness :
    (mostRecentCreated [sampleRec] samplePhone = some 0) ∧
    ((0 : Int) < 15 - (10 - 0)) ∧
    check_otp_rate_limit [sampleRec] 10 samplePhone 15 =
      { allowed := false, wait_seconds := 15 - (10 - 0) } :=
  ⟨by decide, by decide,
   (((check_otp_rate_limit_spec [sampleRec] 10 samplePhone 15).2 0
      (by decide)).2.1 (by decide))⟩

/-! ## C10: consuming the only record erases rate-limit history -/

theorem check_rate_limit_no_history (s : OtpStore) (now : Int) (p : String)
    (w : Int) (h : s.filter (phoneIs p) = []) :
    check_otp_rate_limit s now p w = { allowed := true, wait_seconds := 0 } := by
  unfold check_otp_rate_limit mostRecentCreated
  rw [h]
  rfl

/-- C10.  If the only stored row for a phone is the live record `r` and a
`verify_otp` call hits a terminal outcome (expiry, exhaustion, or code
match — each of which deletes the record), then every subsequent
`check_otp_rate_limit` for that phone, at any time and any window, allows
with wait 0: consuming the OTP erases the rate-limit history. -/
theorem consume_resets_rate_limit (s : OtpStore) (now : Int) (r : OtpRecord)
    (c : String)
    (hfp : s.filter (phoneIs r.phoneNumber) = [r]) (hv : r.verified = false)
    (hterm : r.expiresAt < now ∨ 5 ≤ r.attempts ∨ r.otpCode = c) :
    ∀ now' w : Int,
      check_otp_rate_limit (verify_otp s now r.phoneNumber c).2 now'
          r.phoneNumber w =
        { allowed := true, wait_seconds := 0 } := by
  intro now' w
  apply check_rate_limit_no_history
  by_cases hexp : r.expiresAt < now
  · rw [verify_otp_expired now c hfp hv hexp]
    exact erase_id_filter_phone hfp
  · by_cases hatt : 5 ≤ r.attempts
    · rw [verify_otp_exhausted now c hfp hv hexp hatt]
      exact erase_id_filter_phone hfp
    · have hc : r.otpCode = c := by
        rcases hterm with h | h | h
        · exact absurd h hexp
        · exact absurd h hatt
        · exact h
      rw [verify_otp_match now c hfp hv hexp (Nat.lt_of_not_le hatt) hc]
      exact match_delete_filter_phone hfp

/-- C10 witness: the sample record is consumed by a successful verify at
second 10; a rate-limit check at second 11 (15-second window) allows with
wait 0 even though the record was created at second 0. -/
theorem consume_resets_rate_limit_witness :
    ([sampleRec].filter (phoneIs sampleRec.phoneNumber) = [sampleRec]) ∧
    (sampleRec.otpCode = "482913") ∧
    check_otp_rate_limit (verify_otp [sampleRec] 10 sampleRec.phoneNumber
        "482913").2 11 sampleRec.phoneNumber 15 =
      { allowed := true, wait_seconds := 0 } :=
  ⟨by decide, rfl,
   consume_resets_rate_limit [sampleRec] 10 sampleRec "482913" (by decide) rfl
     (Or.inr (Or.inr rfl)) 11 15⟩

theorem char_digit_toNat (d : Nat) (h : d < 10) :
    (Char.ofNat (48 + d)).toNat = 48 + d := by
  interval_cases d <;> decide

theorem numDigits_succ (n : Nat) (h : n ≠ 0) :
    numDigits n = numDigits (n / 10) + 1 := by
  rw [numDigits]
  simp [h]

theorem digitsVal_toDecimalAux (n : Nat) :
    ∀ (acc : List Char) (a : Nat),
      digitsVal (toDecimalAux n acc) a = digitsVal acc (a * 10 ^ numDigits n + n) := by
  induction n using Nat.strong_induction_on with
  | _ n ih =>
    intro acc a
    by_cases h : n = 0
    · subst h
      rw [toDecimalAux, numDigits]
      simp
    · rw [toDecimalAux]
      rw [dif_neg h]
      rw [ih (n / 10) (Nat.div_lt_self (Nat.pos_of_ne_zero h) (by norm_num))]
      show digitsVal acc
          ((a * 10 ^ numDigits (n / 10) + n / 10) * 10 +
            ((Char.ofNat (48 + n % 10)).toNat - 48)) = _
      rw [char_digit_toNat (n % 10) (Nat.mod_lt _ (by norm_num))]
      rw [numDigits_succ n h, pow_succ]
      congr 1
      have hmod : n / 10 * 10 + n % 10 = n := by omega
      calc (a * 10 ^ numDigits (n / 10) + n / 10) * 10 + (48 + n % 10 - 48)
          = a * 10 ^ numDigits (n / 10) * 10 + (n / 10 * 10 + n % 10) := by
            rw [add_mul]
            omega
        _ = a * (10 ^ numDigits (n / 10) * 10) + n := by rw [hmod, mul_assoc]

theorem digitsVal_jsNumToString (n : Nat) (h : n ≠ 0) :
    digitsVal (jsNumToString n).data 0 = n := by
  rw [jsNumToString, if_neg h]
  show digitsVal (toDecimalAux n []) 0 = n
  rw [digitsVal_toDecimalAux]
  show digitsVal [] (0 * 10 ^ numDigits n + n) = n
  rw [digitsVal]
  omega

theorem jsNumToString_ne_zeros (n : Nat) (h : 0 < n) :
    jsNumToString n ≠ "000000" := by
  intro heq
  have hval := digitsVal_jsNumToString n (Nat.pos_iff_ne_zero.mp h)
  rw [heq] at hval
  have h0 : digitsVal "000000".data 0 = 0 := by decide
  omega

/-! ## C5: the generated code is confined to [100000, 999999] -/

/-- C5 (code behaviour, against the claim).  For EVERY random-source
outcome `q ∈ [0,1)` the generated value lies in `[100000, 999999]`; in
particular the code string is never "000000", so the required
support — all 10^6 zero-padded strings 000000-999999, each reachable — is
not met: the issuer never produces a string with a leading zero. -/
theorem otp_code_generation_bounds (q : ℚ) (h0 : 0 ≤ q) (h1 : q < 1) :
    100000 ≤ genOtpNum q ∧ genOtpNum q ≤ 999999 ∧ genOtpCode q ≠ "000000" := by
  have hlb : (100000 : ℤ) ≤ genOtpNum q := by
    apply Int.le_floor.mpr
    push_cast
    nlinarith
  have hub : genOtpNum q ≤ 999999 := by
    have hlt : genOtpNum q < 1000000 := by
      apply Int.floor_lt.mpr
      push_cast
      nlinarith
    omega
  refine ⟨hlb, hub, ?_⟩
  apply jsNumToString_ne_zeros
  omega

/-- C5 witness: the outcome `q = 0` (the least value `Math.random()` can
return) already generates 100000, not a leading-zero code. -/
theorem otp_code_generation_bounds_witness :
    (0 : ℚ) ≤ 0 ∧ (0 : ℚ) < 1 ∧
      (100000 ≤ genOtpNum 0 ∧ genOtpNum 0 ≤ 999999 ∧ genOtpCode 0 ≠ "000000") :=
  ⟨le_refl 0, by norm_num, otp_code_generation_bounds 0 (le_refl 0) (by norm_num)⟩

theorem valid_phone_shape (phone : String)
    (h : isValidPhoneFormat phone = true) :
    phone ≠ "" ∧ phoneHasPlus phone = true := by
  have h' : phonePlus1 phone = true ∨ phonePlus91 phone = true := by
    unfold isValidPhoneFormat at h
    simpa using h
  rcases h' with h1 | h1
  · unfold phonePlus1 at h1
    rcases hd : phone.data with _ | ⟨c1, _ | ⟨c2, rest⟩⟩ <;> rw [hd] at h1
    · simp at h1
    · simp at h1
    · simp only [Bool.and_eq_true, beq_iff_eq] at h1
      obtain ⟨⟨⟨hc1, _⟩, _⟩, _⟩ := h1
      constructor
      · intro he
        subst he
        simp at hd
      · unfold phoneHasPlus
        rw [hd, hc1]
        rfl
  · unfold phonePlus91 at h1
    rcases hd : phone.data with _ | ⟨c1, _ | ⟨c2, _ | ⟨c3, rest⟩⟩⟩ <;> rw [hd] at h1
    · simp at h1
    · simp at h1
    · simp at h1
    · simp only [Bool.and_eq_true, beq_iff_eq] at h1
      obtain ⟨⟨⟨⟨hc1, _⟩, _⟩, _⟩, _⟩ := h1
      constructor
      · intro he
        subst he
        simp at hd
      · unfold phoneHasPlus
        rw [hd, hc1]
        rfl

/-! ## C9: notifier failure does not roll back issuance -/

/-- C9.  For a valid phone that passes the rate limiter, the issuance
handler returns the success response (`expiresIn` 300 seconds) and leaves
the freshly persisted record in place REGARDLESS of the notifier outcome:
a run with a failed WhatsApp dispatch is indistinguishable from a
successful one. -/
theorem notifier_failure_no_rollback (s : OtpStore) (now : Int)
    (phone : String) (q : ℚ) (newId : Nat) (ip : Option String)
    (hvalid : isValidPhoneFormat phone = true)
    (hallowed : (check_otp_rate_limit s now phone 15).allowed = true) :
    sendOtpHandler s now phone q newId ip false =
      sendOtpHandler s now phone q newId ip true ∧
    (sendOtpHandler s now phone q newId ip false).1 = SendResponse.okSent 300 ∧
    (sendOtpHandler s now phone q newId ip false).2.filter (phoneIs phone) =
      [{ id := newId, phoneNumber := phone, otpCode := genOtpCode q,
         createdAt := now, expiresAt := now + 5 * 60, attempts := 0,
         verified := false, requestIp := ip }] := by
  obtain ⟨hne, hplus⟩ := valid_phone_shape phone hvalid
  unfold sendOtpHandler
  simp only [if_neg hne, hplus, hvalid, hallowed, Bool.not_true,
    Bool.false_eq_true, if_false, if_true]
  refine ⟨by trivial, by trivial, ?_⟩
  exact create_otp_entry_filter_phone s now newId phone _ 5 ip

/-- C9 witness: issuing to the sample phone on an empty store with a FAILED
WhatsApp dispatch still returns `{success, expiresIn: 300}` and leaves the
record stored. -/
theorem notifier_failure_no_rollback_witness :
    isValidPhoneFormat samplePhone = true ∧
    (check_otp_rate_limit [] 0 samplePhone 15).allowed = true ∧
    (sendOtpHandler [] 0 samplePhone 0 1 none false =
        sendOtpHandler [] 0 samplePhone 0 1 none true ∧
      (sendOtpHandler [] 0 samplePhone 0 1 none false).1 =
        SendResponse.okSent 300 ∧
      (sendOtpHandler [] 0 samplePhone 0 1 none false).2.filter
          (phoneIs samplePhone) =
        [{ id := 1, phoneNumber := samplePhone, otpCode := genOtpCode 0,
           createdAt := 0, expiresAt := 0 + 5 * 60, attempts := 0,
           verified := false, requestIp := none }]) :=
  ⟨by decide, rfl,
   notifier_failure_no_rollback [] 0 samplePhone 0 1 none (by decide) rfl⟩

theorem find?_update_pw :
    ∀ (auth : AuthState) (p pw : String) (u : AuthUser),
      auth.find? (fun v => v.phone == p) = some u →
      (adminUpdatePassword auth u.id pw).find?
          (fun v => v.phone == p && v.password == some pw) =
        some { u with password := some pw } := by
  intro auth
  induction auth with
  | nil =>
      intro p pw u h
      simp at h
  | cons a as ih =>
      intro p pw u h
      cases hpa : (a.phone == p) with
      | true =>
          rw [List.find?_cons_of_pos (p := fun (v : AuthUser) => v.phone == p) _
            hpa] at h
          obtain rfl : a = u := Option.some.inj h
          unfold adminUpdatePassword
          simp only [List.map_cons]
          have hhead :
              (if (a.id == a.id) = true then { a with password := some pw }
               else a) = { a with password := some pw } := by simp
          rw [hhead]
          apply List.find?_cons_of_pos
          simp [hpa]
      | false =>
          rw [List.find?_cons_of_neg _ (by simp [hpa])] at h
          have htail := ih p pw u h
          unfold adminUpdatePassword at htail ⊢
          simp only [List.map_cons]
          rw [List.find?_cons_of_neg]
          · exact htail
          · cases hid : (a.id == u.id) <;> simp [hid, hpa]

theorem signIn_after_update (auth : AuthState) (p pw : String) (u : AuthUser)
    (h : auth.find? (fun v => v.phone == p) = some u) :
    signInWithPassword (adminUpdatePassword auth u.id pw) p pw =
      some { userId := u.id } := by
  unfold signInWithPassword
  rw [find?_update_pw auth p pw u h]

/-! ## C6: the ephemeral credential after session minting -/

/-- C6 counterexample.  Concrete successful mint: after the verify handler
returns the session, `signInWithPassword` with the SAME ephemeral secret
still succeeds against the returned auth state — the secret remains a
usable credential, refuting "cannot be used to authenticate again after
the call returns". -/
theorem temp_password_reusable_counterexample :
    ((verifyOtpHandler [sampleRec] [sampleUser] 10 samplePhone "482913"
        "ephemeral-pw-1" 100 101).1 =
      VerifyHttpResponse.ok "OTP verified successfully" { userId := 7 }) ∧
    (signInWithPassword
        (verifyOtpHandler [sampleRec] [sampleUser] 10 samplePhone "482913"
          "ephemeral-pw-1" 100 101).2.2
        samplePhone "ephemeral-pw-1" = some { userId := 7 }) := by
  decide

/-- C6 (amended).  After a successful mint for an existing account, the
handler returns the session for that account, but the ephemeral secret
PERSISTS as a usable credential for the account: `signInWithPassword` with the same
secret still succeeds on the post-call auth state.  No code path clears or
rotates it after session creation; it is only replaced when a later verify
flow for the phone sets a new temp password. -/
theorem temp_password_persists (s : OtpStore) (auth : AuthState) (now : Int)
    (r : OtpRecord) (u : AuthUser) (otp tempPassword : String)
    (i1 i2 : Nat)
    (hfp : s.filter (phoneIs r.phoneNumber) = [r]) (hv : r.verified = false)
    (hexp : ¬ r.expiresAt < now) (hatt : r.attempts < 5) (hc : r.otpCode = otp)
    (hne : r.phoneNumber ≠ "") (hone : otp ≠ "")
    (hfind : auth.find? (fun v => v.phone == r.phoneNumber) = some u) :
    verifyOtpHandler s auth now r.phoneNumber otp tempPassword i1 i2 =
      (VerifyHttpResponse.ok "OTP verified successfully" { userId := u.id },
       (verify_otp s now r.phoneNumber otp).2,
       adminUpdatePassword auth u.id tempPassword) ∧
    signInWithPassword (adminUpdatePassword auth u.id tempPassword)
        r.phoneNumber tempPassword = some { userId := u.id } := by
  have hmatch := verify_otp_match now otp hfp hv hexp hatt hc
  have hsign := signIn_after_update auth r.phoneNumber tempPassword u hfind
  refine ⟨?_, hsign⟩
  unfold verifyOtpHandler
  rw [if_neg (by simp [hne, hone])]
  rw [hmatch, hfind]
  simp [hsign]

/-- C6 witness: the amended persistence statement at the concrete sample
account. -/
theorem temp_password_persists_witness :
    ([sampleRec].filter (phoneIs sampleRec.phoneNumber) = [sampleRec]) ∧
    ([sampleUser].find? (fun v => v.phone == sampleRec.phoneNumber) =
      some sampleUser) ∧
    (verifyOtpHandler [sampleRec] [sampleUser] 10 sampleRec.phoneNumber
        "482913" "ephemeral-pw-2" 100 101 =
      (VerifyHttpResponse.ok "OTP verified successfully"
          { userId := sampleUser.id },
       (verify_otp [sampleRec] 10 sampleRec.phoneNumber "482913").2,
       adminUpdatePassword [sampleUser] sampleUser.id "ephemeral-pw-2") ∧
     signInWithPassword
        (adminUpdatePassword [sampleUser] sampleUser.id "ephemeral-pw-2")
        sampleRec.phoneNumber "ephemeral-pw-2" =
      some { userId := sampleUser.id }) :=
  ⟨by decide, by decide,
   temp_password_persists [sampleRec] [sampleUser] 10 sampleRec sampleUser
     "482913" "ephemeral-pw-2" 100 101 (by decide) rfl (by decide) (by decide)
     rfl (by decide) (by decide) (by decide)⟩

/-! ## C4: the concrete scenario from the spec -/

/-- C4 counterexample.  Running the claimed scenario: issue "482913" for
the sample phone (5-minute expiry), verify "000000" — which does return
`{success:false, "Invalid OTP code", remainingAttempts 4}` — then verify
"482913": the success result carries remainingAttempts 3, not the claimed
4 (the code computes `5 - (attempts + 1)` with attempts already 1). -/
theorem concrete_scenario_counterexample :
    ((create_otp_entry [] 0 1 samplePhone "482913" 5 none).2 = [sampleRec]) ∧
    ((verify_otp [sampleRec] 10 samplePhone "000000").1 =
      { success := false, message := "Invalid OTP code",
        remaining_attempts := 4 }) ∧
    ((verify_otp (verify_otp [sampleRec] 10 samplePhone "000000").2 20
        samplePhone "482913").1 =
      { success := true, message := "OTP verified successfully",
        remaining_attempts := 3 }) ∧
    (3 : Int) ≠ 4 := by
  decide

/-- C4 (amended).  The concrete scenario with an account for the sample
phone already present: issue "482913" with a 5-minute expiry; the verify
handler on "000000" returns 400 `{error: "Invalid OTP code",
remaining_attempts: 4}`; the verify handler on "482913" then succeeds with
remainingAttempts 3 at the RPC level (the 200 body itself carries no
remaining-attempts field) and returns a session bound to the directory
account for "+15551234567".  (With no pre-existing account the second
`createUser` call of the handler fails on the duplicate phone and the request ends
in a 500 instead.) -/
theorem concrete_scenario_amended :
    ((create_otp_entry [] 0 1 samplePhone "482913" 5 none).2 = [sampleRec]) ∧
    ((verifyOtpHandler [sampleRec] [sampleUser] 10 samplePhone "000000" "pwA"
        100 101).1 = VerifyHttpResponse.verifyFailed "Invalid OTP code" 4) ∧
    ((verify_otp (verifyOtpHandler [sampleRec] [sampleUser] 10 samplePhone
        "000000" "pwA" 100 101).2.1 20 samplePhone "482913").1 =
      { success := true, message := "OTP verified successfully",
        remaining_attempts := 3 }) ∧
    ((verifyOtpHandler
        (verifyOtpHandler [sampleRec] [sampleUser] 10 samplePhone "000000"
          "pwA" 100 101).2.1
        (verifyOtpHandler [sampleRec] [sampleUser] 10 samplePhone "000000"
          "pwA" 100 101).2.2
        20 samplePhone "482913" "pwB" 100 101).1 =
      VerifyHttpResponse.ok "OTP verified successfully"
        { userId := sampleUser.id }) ∧
    (sampleUser.phone = samplePhone) := by
  decide
